import Mathlib

/-!
# Verification of the torque task-queue core

Shallow embedding of the torque repository's task lifecycle, performer,
enqueue endpoint and queue processor, with theorems checking the
natural-language specification against the code.

Source files embedded:
* `src/torque/model/api.py` — `TaskManager` (`acquire`, `_update`,
  `reschedule`, `complete`, `fail`).
* `src/torque/work/perform.py` — `TaskPerformer.__call__`.
* `src/torque/api/view.py` — `EnqueTask.__call__`.
* `src/torque/processor.py` — `QueueProcessor._run` and `_dispatch`.
* `src/torque/webapp.py` — `ConcurrentExecuter.post` (empty-queue statuses).

`model/orm.py` and `model/due.py` are not part of the sources; the column
default/onupdate machinery and the due-date factory are modelled from the
spec where a claim depends on them, and each such definition is marked
`Modelled from the spec:` in its doc comment.
-/

namespace Torque

/-- Task status values, from `constants.TASK_STATUSES`
(`pending`, `in_progress`, `completed`, `failed`). -/
inductive TaskStatus
  | pending
  | in_progress
  | completed
  | failed
deriving DecidableEq, Repr

/-- A task row, per the data model of `model/orm.py` as described by the
spec's §3 table (instants are modelled as integers). -/
structure Task where
  id : ℤ
  url : String
  body : String
  charset : String
  enctype : String
  headers : List (String × String)
  timeout : ℤ
  status : TaskStatus
  retry_count : ℤ
  due : ℤ
deriving DecidableEq, Repr

/-- The per-attempt snapshot (`task_data`) produced by
`task.__json__(include_request_data=True)` in `TaskManager.acquire`: the
fields the performer and `_update` consume. -/
structure TaskData where
  url : String
  body : String
  charset : String
  enctype : String
  headers : List (String × String)
  timeout : ℤ
  retry_count : ℤ
deriving DecidableEq, Repr

/-- Project a row to its snapshot (`task.__json__`). -/
def taskJson (t : Task) : TaskData :=
  { url := t.url, body := t.body, charset := t.charset, enctype := t.enctype,
    headers := t.headers, timeout := t.timeout, retry_count := t.retry_count }

/-- `query.filter_by(id=tid, retry_count=rc).first()` over a list of rows. -/
def findTask : List Task → ℤ → ℤ → Option Task
  | [], _, _ => none
  | t :: rest, tid, rc =>
    if t.id = tid ∧ t.retry_count = rc then some t else findTask rest tid rc

/-- `query.filter_by(id=tid, retry_count=rc).update(...)`: apply `f` to
every row matching the conditional-update predicate. -/
def condUpdate (tid rc : ℤ) (f : Task → Task) : List Task → List Task
  | [] => []
  | u :: rest =>
    (if u.id = tid ∧ u.retry_count = rc then f u else u) :: condUpdate tid rc f rest

/-- The store invariant "exactly one row per id" (spec §3 invariant 5). -/
def uniqueIds : List Task → Bool
  | [] => true
  | t :: rest => rest.all (fun u => u.id != t.id) && uniqueIds rest

/-! ## Lifecycle manager (`model/api.py` `TaskManager`) -/

/-- Modelled from the spec: `model/due.py`'s `DueFactory` is not under
`src/`. Spec §4.B: `due(timeout_seconds, retry_count) = now() +
timeout_seconds + jitter(retry_count)` with `jitter` a deterministic
per-retry-count offset (passed here as a function). -/
def dueFactory (now timeout retry_count : ℤ) (jitter : ℤ → ℤ) : ℤ :=
  now + timeout + jitter retry_count

/-- The row as rewritten inside `TaskManager.acquire`'s transaction:
`task.retry_count = retry_count + 1` is in `api.py`; setting
`status = in_progress` and `due = now + timeout` is
modelled from the spec: it happens in `model/orm.py`'s column onupdate
machinery, absent from `src/` (spec §4.D acquire row: "set new
`retry_count = expected + 1`, `status = in_progress`, `due = now + timeout`"). -/
def acquiredRow (now : ℤ) (t : Task) (rc : ℤ) : Task :=
  { t with retry_count := rc + 1, status := TaskStatus.in_progress,
           due := now + t.timeout }

/-- `TaskManager.acquire(id_, retry_count)`: conditionally match the row on
`(id, retry_count)`; on a hit rewrite it and return its snapshot, else
return `none` (absent) and leave the store untouched. -/
def acquire (now : ℤ) (store : List Task) (tid rc : ℤ) :
    List Task × Option TaskData :=
  match findTask store tid rc with
  | none => (store, none)
  | some t =>
    (condUpdate tid rc (fun u => acquiredRow now u rc) store,
     some (taskJson (acquiredRow now t rc)))

/-- The merged values dict written by `TaskManager._update`: always rewrites
`retry_count` and `timeout` from the snapshot, plus the explicitly passed
`status` and/or `due`. The treatment of columns absent from the dict is
modelled from the spec: `model/orm.py`'s onupdate machinery is not under
`src/`; per spec §4.D a write that does not name `status` leaves the task
`pending` (reschedule: "status remains `pending`"), and per spec §3
invariant 3 `due` is recomputed only on `acquire` and `reschedule`, so a
write that does not name `due` leaves it unchanged. -/
def applyUpdate (snap : TaskData) (vstatus : Option TaskStatus)
    (vdue : Option ℤ) (u : Task) : Task :=
  { u with retry_count := snap.retry_count, timeout := snap.timeout,
           status := vstatus.getD TaskStatus.pending,
           due := vdue.getD u.due }

/-- `TaskManager._update(**values)`: conditional update filtered by
`id=task_id, retry_count=snapshot.retry_count`. -/
def updateTask (snap : TaskData) (tid : ℤ) (vstatus : Option TaskStatus)
    (vdue : Option ℤ) (store : List Task) : List Task :=
  condUpdate tid snap.retry_count (applyUpdate snap vstatus vdue) store

/-- `TaskManager.reschedule()`: `_update(due=self.due_factory(0, retry_count))`,
returning `statuses['pending']`. -/
def rescheduleOp (now : ℤ) (jitter : ℤ → ℤ) (snap : TaskData) (tid : ℤ)
    (store : List Task) : List Task × TaskStatus :=
  (updateTask snap tid none (some (dueFactory now 0 snap.retry_count jitter)) store,
   TaskStatus.pending)

/-- `TaskManager.complete()`: `_update(status=statuses['completed'])`. -/
def completeOp (snap : TaskData) (tid : ℤ) (store : List Task) :
    List Task × TaskStatus :=
  (updateTask snap tid (some TaskStatus.completed) none store,
   TaskStatus.completed)

/-- `TaskManager.fail()`: `_update(status=statuses['failed'])`. -/
def failOp (snap : TaskData) (tid : ℤ) (store : List Task) :
    List Task × TaskStatus :=
  (updateTask snap tid (some TaskStatus.failed) none store,
   TaskStatus.failed)

/-! ## Task performer (`work/perform.py` `TaskPerformer.__call__`) -/

/-- Characters stripped by Python's `str.strip()` / accepted around
`int()` input. -/
def isSpaceChar (c : Char) : Bool :=
  c = ' ' ∨ c = '\t' ∨ c = '\n' ∨ c = '\r' ∨ c = '\x0b' ∨ c = '\x0c'

/-- Strip `isSpaceChar` characters from both ends. -/
def trimChars (cs : List Char) : List Char :=
  ((cs.dropWhile isSpaceChar).reverse.dropWhile isSpaceChar).reverse

/-- Parse a non-empty all-digit character list as a natural number. -/
def parseDigits (cs : List Char) : Option ℕ :=
  if cs ≠ [] ∧ cs.all Char.isDigit then
    some (cs.foldl (fun acc c => 10 * acc + (c.toNat - 48)) 0)
  else none

/-- Python 2 `int(s)` on a decimal string: optional surrounding whitespace,
optional single sign, at least one digit. `none` models the `ValueError`. -/
def pyInt (s : String) : Option ℤ :=
  match trimChars s.toList with
  | [] => none
  | c :: rest =>
    if c = '-' then (parseDigits rest).map (fun n => -(n : ℤ))
    else if c = '+' then (parseDigits rest).map (fun n => (n : ℤ))
    else (parseDigits (c :: rest)).map (fun n => (n : ℤ))

/-- Python `s.split(sep)` for a one-character separator, over char lists. -/
def splitCharsOn (sep : Char) : List Char → List (List Char)
  | [] => [[]]
  | c :: rest =>
    let r := splitCharsOn sep rest
    if c = sep then [] :: r
    else
      match r with
      | [] => [[c]]
      | g :: gs => (c :: g) :: gs

/-- Python `instruction.split(':')`. -/
def splitOnColon (s : String) : List String :=
  (splitCharsOn ':' s.toList).map (fun cs => String.mk cs)

/-- `task_id, retry_count = map(int, instruction.split(':'))`: `none`
models the uncaught `ValueError` (a non-integer part, or a part count
other than two). -/
def parseInstruction (s : String) : Option (ℤ × ℤ) :=
  match (splitOnColon s).map pyInt with
  | [some a, some b] => some (a, b)
  | _ => none

/-- The readiness-polling loop of `TaskPerformer.__call__`: at poll `k`,
first test `control_flag.is_set()` (`flag k`); when cleared, exit with the
response still `None`. Otherwise sleep and test `greenlet.ready()`
(`ready k`): `some v` means the greenlet finished with value `v`, where
`v = none` models a raised request (no response) and `v = some code` a
response with that status code. `fuel` bounds the modelled window. -/
def pollLoop (flag : ℕ → Bool) (ready : ℕ → Option (Option ℕ)) :
    ℕ → ℕ → Option ℕ
  | _, 0 => none
  | k, fuel + 1 =>
    if flag k then
      match ready k with
      | some v => v
      | none => pollLoop flag ready (k + 1) fuel
    else none

/-- A lifecycle transition chosen by the performer. -/
inductive LifecycleAction
  | reschedule
  | fail
  | complete
deriving DecidableEq, Repr

/-- The outcome mapping at the end of `TaskPerformer.__call__`:
`if response is None or response.status_code > 499: reschedule`,
`elif response.status_code > 201: fail`, `else: complete`. -/
def outcomeAction : Option ℕ → LifecycleAction
  | none => LifecycleAction.reschedule
  | some c =>
    if 499 < c then LifecycleAction.reschedule
    else if 201 < c then LifecycleAction.fail
    else LifecycleAction.complete

/-- The collaborators of one performer call: the control flag and greenlet
readiness as observed at each poll, the clock value at acquisition and at
the final `_update`, and the due jitter. -/
structure PerformEnv where
  flag : ℕ → Bool
  ready : ℕ → Option (Option ℕ)
  nowAcquire : ℤ
  nowUpdate : ℤ
  jitter : ℤ → ℤ

/-- The uncaught exception of `TaskPerformer.__call__`. -/
inductive PerformError
  | valueError
deriving DecidableEq, Repr

/-- `TaskPerformer.__call__(instruction, control_flag)`: parse (raising on
malformed input), acquire (returning on absent), wait on the greenlet
while watching the flag, then map the outcome to a lifecycle transition.
Returns the store alongside the outcome so frame effects are visible. -/
def performerRun (env : PerformEnv) (fuel : ℕ) (instruction : String)
    (store : List Task) : List Task × Except PerformError (Option TaskStatus) :=
  match parseInstruction instruction with
  | none => (store, Except.error PerformError.valueError)
  | some (tid, rc) =>
    match acquire env.nowAcquire store tid rc with
    | (s1, none) => (s1, Except.ok none)
    | (s1, some snap) =>
      match outcomeAction (pollLoop env.flag env.ready 0 fuel) with
      | LifecycleAction.reschedule =>
        let r := rescheduleOp env.nowUpdate env.jitter snap tid s1
        (r.1, Except.ok (some r.2))
      | LifecycleAction.fail =>
        let r := failOp snap tid s1
        (r.1, Except.ok (some r.2))
      | LifecycleAction.complete =>
        let r := completeOp snap tid s1
        (r.1, Except.ok (some r.2))

/-! ## Enqueue endpoint (`api/view.py` `EnqueTask.__call__`) -/

/-- Result of a `POST /` enqueue request. `badUrl` and `badTimeout` are the
two `HTTPBadRequest` raises; `uncaught` models `int(None)` raising a
`TypeError` that the `except ValueError` clause does not catch (no timeout
parameter and no configured default). -/
inductive EnqueueOutcome
  | badUrl
  | badTimeout
  | uncaught
  | created (timeout : ℤ)
deriving DecidableEq, Repr

/-- `EnqueTask.__call__`. `matchUrl` stands for the injected
`VALID_URL.match` regex test (`kwargs.get('valid_url', VALID_URL)`); the
`url and self.valid_url.match(url)` guard makes `None` and the empty
string falsy. The timeout is `int(request.GET.get('timeout',
default_timeout))` guarded only by `except ValueError`; the compiled
`VALID_INT` non-negativity regex is never applied in `__call__`. On
success the task is persisted (appended) and the instruction is pushed. -/
def enqueTask (matchUrl : String → Bool)
    (url timeoutParam defaultTimeout : Option String)
    (store : List (String × ℤ)) : List (String × ℤ) × EnqueueOutcome :=
  match url with
  | none => (store, EnqueueOutcome.badUrl)
  | some u =>
    if u = "" ∨ matchUrl u = false then (store, EnqueueOutcome.badUrl)
    else
      match timeoutParam.orElse (fun _ => defaultTimeout) with
      | none => (store, EnqueueOutcome.uncaught)
      | some raw =>
        match pyInt raw with
        | none => (store, EnqueueOutcome.badTimeout)
        | some t => (store ++ [(u, t)], EnqueueOutcome.created t)

/-! ## Queue processor (`processor.py`) and executer statuses (`webapp.py`) -/

/-- The task-error configuration of `QueueProcessor` (delays as exact
rationals in place of Python floats). -/
structure ProcCfg where
  max_task_errors : ℕ
  max_task_delay : ℚ
  min_delay : ℚ
deriving Repr

/-- What `QueueProcessor._run` does to one task after its webhook attempt:
remove it from the queue, or re-add it with a delay. -/
inductive TaskFate
  | removed
  | readded (delay : ℚ)
deriving DecidableEq, Repr

/-- The per-task block of `QueueProcessor._run` (lines 203-213):
`if 200 <= status_code < 300: t.remove()` else compare the incremented
error count against `max_task_errors` and otherwise re-add with
`min(pow(1 + min_delay, error_count), max_task_delay)`.
`error_count` is the value returned by `t.get_and_increment_error_count()`
(defined in `client.py`, outside `src/`), passed here as an argument. -/
def processResponseCode (cfg : ProcCfg) (status_code error_count : ℕ) : TaskFate :=
  if 200 ≤ status_code ∧ status_code < 300 then TaskFate.removed
  else if cfg.max_task_errors < error_count then TaskFate.removed
  else
    let delay := (1 + cfg.min_delay) ^ error_count
    TaskFate.readded (if cfg.max_task_delay < delay then cfg.max_task_delay else delay)

/-- The polling-loop configuration of `QueueProcessor`. -/
structure PollCfg where
  min_delay : ℚ
  max_empty_delay : ℚ
  max_error_delay : ℚ
  empty_multiplier : ℚ
  error_multiplier : ℚ
  finish_on_empty : Bool
deriving Repr

/-- One step of `QueueProcessor._run`'s while loop: either the run returns
(`finished success`) or the loop continues with a new backoff. -/
inductive LoopStep
  | finished (success : Bool)
  | again (backoff : ℚ)
deriving DecidableEq, Repr

/-- One iteration of `QueueProcessor._run` after `_dispatch` returned
`status`: on 200 ease the backoff toward `min_delay`; on 204/205 grow it
toward `max_empty_delay`, returning `True` on 205 under `finish_on_empty`;
on anything else return `False` under `finish_on_empty`, else grow the
backoff toward `max_error_delay`. -/
def runIteration (cfg : PollCfg) (status : ℕ) (backoff : ℚ) : LoopStep :=
  if status = 200 then
    LoopStep.again
      (if cfg.min_delay < backoff then
        (let b := backoff / cfg.error_multiplier
         if b < cfg.min_delay then cfg.min_delay else b)
       else backoff)
  else if status = 204 ∨ status = 205 then
    if status = 205 ∧ cfg.finish_on_empty = true then LoopStep.finished true
    else
      LoopStep.again
        (let b := backoff * cfg.empty_multiplier
         if cfg.max_empty_delay < b then cfg.max_empty_delay else b)
  else
    if cfg.finish_on_empty = true then LoopStep.finished false
    else
      LoopStep.again
        (let b := backoff * cfg.error_multiplier
         if cfg.max_error_delay < b then cfg.max_error_delay else b)

/-- `ConcurrentExecuter.post` when the fetched task list is empty
(`webapp.py` lines 106-117): status 204, upgraded to 205 when
`check_pending` and `count_tasks(...) < 1`. -/
def executerEmptyStatus (check_pending : Bool) (pending_count : ℕ) : ℕ :=
  if check_pending = true ∧ pending_count < 1 then 205 else 204

/-- The empty-queue response status of `ConcurrentExecuter.post` as a
function of the fetched batch size: `some` only when the broker is empty
(a non-empty batch takes the asynchronous 200 path instead). -/
def executerStatus (len_tasks : ℕ) (check_pending : Bool)
    (pending_count : ℕ) : Option ℕ :=
  if len_tasks = 0 then some (executerEmptyStatus check_pending pending_count)
  else none

/-! ## Fixtures -/

/-- A pending task row used by witnesses. -/
def wTask : Task :=
  { id := 1, url := "http://h/ok", body := "b", charset := "utf-8",
    enctype := "application/x-www-form-urlencoded", headers := [],
    timeout := 10, status := TaskStatus.pending, retry_count := 0, due := 0 }

/-- A row whose `retry_count` has advanced past an old attempt's snapshot. -/
def staleTask : Task := { wTask with retry_count := 5 }

/-- The concrete row of `wTask` after acquisition, and its snapshot. -/
def wAcquired : Task := acquiredRow 100 wTask 0

/-- Snapshot held by the manager after acquiring `wTask`. -/
def wSnap : TaskData := taskJson wAcquired

/-- The module defaults of `processor.py`: `max_task_errors=100`,
`max_task_delay=1111`, `min_delay=0.2`. -/
def procDefaults : ProcCfg :=
  { max_task_errors := 100, max_task_delay := 1111, min_delay := 1/5 }

/-- Polling defaults of `processor.py` with `finish_on_empty` enabled. -/
def pollCfgOn : PollCfg :=
  { min_delay := 1/5, max_empty_delay := 8/5, max_error_delay := 240,
    empty_multiplier := 3/2, error_multiplier := 4, finish_on_empty := true }

/-- The same polling configuration with `finish_on_empty` disabled. -/
def pollCfgOff : PollCfg := { pollCfgOn with finish_on_empty := false }

/-- A performer environment whose control flag is already cleared and whose
greenlet never completes in the observed window. -/
def envCleared : PerformEnv :=
  { flag := fun _ => false, ready := fun _ => none, nowAcquire := 100,
    nowUpdate := 150, jitter := fun _ => 0 }

/-! ## Helper lemmas -/

lemma findTask_some {store : List Task} {tid rc : ℤ} {t : Task}
    (h : findTask store tid rc = some t) :
    t.id = tid ∧ t.retry_count = rc ∧ t ∈ store := by
  induction store with
  | nil => simp [findTask] at h
  | cons u rest ih =>
    by_cases hu : u.id = tid ∧ u.retry_count = rc
    · simp [findTask, hu] at h
      subst h
      exact ⟨hu.1, hu.2, List.mem_cons_self u rest⟩
    · simp [findTask, hu] at h
      obtain ⟨h1, h2, h3⟩ := ih h
      exact ⟨h1, h2, List.mem_cons_of_mem u h3⟩

lemma findTask_none_of {store : List Task} {tid rc : ℤ}
    (h : ∀ u ∈ store, ¬(u.id = tid ∧ u.retry_count = rc)) :
    findTask store tid rc = none := by
  induction store with
  | nil => rfl
  | cons u rest ih =>
    have hu := h u (List.mem_cons_self u rest)
    simp only [findTask, if_neg hu]
    exact ih (fun v hv => h v (List.mem_cons_of_mem u hv))

lemma condUpdate_of_no_match {store : List Task} {tid rc : ℤ} {f : Task → Task}
    (h : ∀ u ∈ store, ¬(u.id = tid ∧ u.retry_count = rc)) :
    condUpdate tid rc f store = store := by
  induction store with
  | nil => rfl
  | cons u rest ih =>
    have hu := h u (List.mem_cons_self u rest)
    simp only [condUpdate, if_neg hu]
    rw [ih (fun v hv => h v (List.mem_cons_of_mem u hv))]

lemma uniqueIds_cons {t : Task} {rest : List Task}
    (h : uniqueIds (t :: rest) = true) :
    (∀ u ∈ rest, u.id ≠ t.id) ∧ uniqueIds rest = true := by
  simp only [uniqueIds, Bool.and_eq_true, List.all_eq_true] at h
  refine ⟨fun u hu => ?_, h.2⟩
  have := h.1 u hu
  simpa using this

/-- Conditional update through the unique-id store: the matched row is
replaced by `f t`, nothing else can match the `(tid, rc')` lookup. -/
lemma findTask_condUpdate {store : List Task} {tid rc : ℤ} {t : Task}
    (f : Task → Task) (rc' : ℤ)
    (huniq : uniqueIds store = true) (hfind : findTask store tid rc = some t)
    (hid : (f t).id = tid) :
    findTask (condUpdate tid rc f store) tid rc'
      = if (f t).retry_count = rc' then some (f t) else none := by
  induction store with
  | nil => simp [findTask] at hfind
  | cons u rest ih =>
    obtain ⟨hall, hrest⟩ := uniqueIds_cons huniq
    by_cases hu : u.id = tid ∧ u.retry_count = rc
    · have ht : t = u := by simpa [findTask, hu] using hfind.symm
      subst ht
      have hnone : ∀ v ∈ rest, ¬(v.id = tid ∧ v.retry_count = rc) := by
        intro v hv hc
        exact hall v hv (hc.1.trans hu.1.symm)
      rw [condUpdate, if_pos hu, condUpdate_of_no_match hnone]
      by_cases hrc : (f t).retry_count = rc'
      · rw [if_pos hrc]
        simp [findTask, hid, hrc]
      · rw [if_neg hrc]
        simp only [findTask, hid, hrc, and_false, if_false, if_neg]
        exact findTask_none_of (fun v hv hc => hall v hv (hc.1.trans hu.1.symm))
    · have hfind' : findTask rest tid rc = some t := by
        simpa [findTask, hu] using hfind
      have htmem := (findTask_some hfind').2.2
      have htid := (findTask_some hfind').1
      have huid : u.id ≠ tid := by
        intro hc
        exact hall t htmem (htid.trans hc.symm)
      rw [condUpdate, if_neg hu]
      simp only [findTask, huid, false_and, if_neg, if_false]
      exact ih hrest hfind'

lemma condUpdate_all_id {tid rc : ℤ} {f : Task → Task}
    (hf : ∀ u, (f u).id = u.id) (x : ℤ) (l : List Task) :
    (condUpdate tid rc f l).all (fun v => v.id != x) = l.all (fun v => v.id != x) := by
  induction l with
  | nil => rfl
  | cons u rest ih =>
    simp only [condUpdate, List.all_cons, ih]
    by_cases hu : u.id = tid ∧ u.retry_count = rc
    · rw [if_pos hu, hf u]
    · rw [if_neg hu]

lemma uniqueIds_condUpdate {tid rc : ℤ} {f : Task → Task}
    (hf : ∀ u, (f u).id = u.id) (store : List Task) :
    uniqueIds (condUpdate tid rc f store) = uniqueIds store := by
  induction store with
  | nil => rfl
  | cons u rest ih =>
    simp only [condUpdate, uniqueIds, ih, condUpdate_all_id hf]
    by_cases hu : u.id = tid ∧ u.retry_count = rc
    · rw [if_pos hu, hf u]
    · rw [if_neg hu]

lemma pollLoop_cleared (flag : ℕ → Bool) (ready : ℕ → Option (Option ℕ)) :
    ∀ (fuel k n : ℕ), k ≤ n → n < k + fuel → flag n = false →
    (∀ j, k ≤ j → j < n → flag j = true ∧ ready j = none) →
    pollLoop flag ready k fuel = none := by
  intro fuel
  induction fuel with
  | zero =>
    intro k n h1 h2 _ _
    exact absurd h2 (by omega)
  | succ m ih =>
    intro k n h1 h2 hclear hbefore
    by_cases hkn : k = n
    · subst hkn
      simp [pollLoop, hclear]
    · have hk : flag k = true ∧ ready k = none :=
        hbefore k le_rfl (by omega)
      simp only [pollLoop, hk.1, if_true, hk.2]
      exact ih (k + 1) n (by omega) (by omega) hclear
        (fun j hj1 hj2 => hbefore j (by omega) hj2)

lemma condUpdate_congr {tid rc : ℤ} {f g : Task → Task} :
    ∀ {s : List Task},
    (∀ u ∈ s, u.id = tid → u.retry_count = rc → f u = g u) →
    condUpdate tid rc f s = condUpdate tid rc g s := by
  intro s
  induction s with
  | nil =>
    intro _
    rfl
  | cons u rest ih =>
    intro h
    simp only [condUpdate]
    congr 1
    · by_cases hu : u.id = tid ∧ u.retry_count = rc
      · rw [if_pos hu, if_pos hu, h u (List.mem_cons_self u rest) hu.1 hu.2]
      · rw [if_neg hu, if_neg hu]
    · exact ih (fun v hv => h v (List.mem_cons_of_mem u hv))

/-! ## Claims -/

/-- C1: a call `acquire(id, k)` on a store holding a row with that id and
`retry_count = k` sets `retry_count = k + 1`, `status = in_progress` and
`due = now + timeout` on that row and returns its snapshot; on a store with
no such row it returns absent and changes nothing; and a second
`acquire(id, k)` after a successful one returns absent and changes
nothing. -/
theorem acquire_spec (now : ℤ) (store : List Task) (tid rc : ℤ) (t : Task)
    (huniq : uniqueIds store = true) (hfind : findTask store tid rc = some t) :
    (acquire now store tid rc).2 = some (taskJson (acquiredRow now t rc)) ∧
    (taskJson (acquiredRow now t rc)).retry_count = rc + 1 ∧
    (acquiredRow now t rc).status = TaskStatus.in_progress ∧
    (acquiredRow now t rc).due = now + t.timeout ∧
    findTask (acquire now store tid rc).1 tid (rc + 1)
      = some (acquiredRow now t rc) ∧
    (∀ s' : List Task, findTask s' tid rc = none →
      acquire now s' tid rc = (s', none)) ∧
    acquire now (acquire now store tid rc).1 tid rc
      = ((acquire now store tid rc).1, none) := by
  have htid := (findTask_some hfind).1
  have hfst : (acquire now store tid rc).1
      = condUpdate tid rc (fun u => acquiredRow now u rc) store := by
    simp [acquire, hfind]
  have hid : (acquiredRow now t rc).id = tid := htid
  have hval : (acquiredRow now t rc).retry_count = rc + 1 := rfl
  have hfc := findTask_condUpdate (fun u => acquiredRow now u rc) (rc + 1)
    huniq hfind hid
  have hfc2 := findTask_condUpdate (fun u => acquiredRow now u rc) rc
    huniq hfind hid
  have habs : ∀ s' : List Task, findTask s' tid rc = none →
      acquire now s' tid rc = (s', none) := by
    intro s' h
    simp [acquire, h]
  have hnone : findTask (acquire now store tid rc).1 tid rc = none := by
    rw [hfst, hfc2, if_neg (by rw [hval]; omega)]
  refine ⟨by simp [acquire, hfind], rfl, rfl, rfl, ?_, habs, habs _ hnone⟩
  rw [hfst, hfc, if_pos hval]

/-- C1 witness: `acquire` on a concrete one-row store. -/
theorem acquire_spec_witness :
    uniqueIds [wTask] = true ∧ findTask [wTask] 1 0 = some wTask ∧
    ((acquire 100 [wTask] 1 0).2 = some (taskJson (acquiredRow 100 wTask 0)) ∧
     (taskJson (acquiredRow 100 wTask 0)).retry_count = 0 + 1 ∧
     (acquiredRow 100 wTask 0).status = TaskStatus.in_progress ∧
     (acquiredRow 100 wTask 0).due = 100 + wTask.timeout ∧
     findTask (acquire 100 [wTask] 1 0).1 1 (0 + 1)
       = some (acquiredRow 100 wTask 0) ∧
     (∀ s' : List Task, findTask s' 1 0 = none →
       acquire 100 s' 1 0 = (s', none)) ∧
     acquire 100 (acquire 100 [wTask] 1 0).1 1 0
       = ((acquire 100 [wTask] 1 0).1, none)) :=
  ⟨by decide, by decide, acquire_spec 100 [wTask] 1 0 wTask (by decide) (by decide)⟩

/-- C2: the outcome mapping of `TaskPerformer.__call__`: no response or
5xx rescheduled, 202-499 failed, codes up to 201 completed; the three
ranges cover every status code from 100 to 599. -/
theorem outcome_mapping :
    outcomeAction none = LifecycleAction.reschedule ∧
    (∀ c : ℕ, 500 ≤ c → c ≤ 599 →
      outcomeAction (some c) = LifecycleAction.reschedule) ∧
    (∀ c : ℕ, 202 ≤ c → c ≤ 499 →
      outcomeAction (some c) = LifecycleAction.fail) ∧
    (∀ c : ℕ, 100 ≤ c → c ≤ 201 →
      outcomeAction (some c) = LifecycleAction.complete) ∧
    (∀ c : ℕ, 100 ≤ c → c ≤ 599 →
      (500 ≤ c ∧ outcomeAction (some c) = LifecycleAction.reschedule) ∨
      (202 ≤ c ∧ c ≤ 499 ∧ outcomeAction (some c) = LifecycleAction.fail) ∨
      (c ≤ 201 ∧ outcomeAction (some c) = LifecycleAction.complete)) := by
  refine ⟨rfl, ?_, ?_, ?_, ?_⟩
  · intro c h1 h2
    simp only [outcomeAction]
    rw [if_pos (by omega)]
  · intro c h1 h2
    simp only [outcomeAction]
    rw [if_neg (by omega), if_pos (by omega)]
  · intro c h1 h2
    simp only [outcomeAction]
    rw [if_neg (by omega), if_neg (by omega)]
  · intro c h1 h2
    by_cases h5 : 500 ≤ c
    · refine Or.inl ⟨h5, ?_⟩
      simp only [outcomeAction]
      rw [if_pos (by omega)]
    · by_cases h4 : 202 ≤ c
      · refine Or.inr (Or.inl ⟨h4, by omega, ?_⟩)
        simp only [outcomeAction]
        rw [if_neg (by omega), if_pos (by omega)]
      · refine Or.inr (Or.inr ⟨by omega, ?_⟩)
        simp only [outcomeAction]
        rw [if_neg (by omega), if_neg (by omega)]

/-- C2 witness: the mapping at the boundary codes 503, 404 and 200. -/
theorem outcome_mapping_witness :
    ((500 : ℕ) ≤ 503 ∧ 503 ≤ 599 ∧
      outcomeAction (some 503) = LifecycleAction.reschedule) ∧
    ((202 : ℕ) ≤ 404 ∧ 404 ≤ 499 ∧
      outcomeAction (some 404) = LifecycleAction.fail) ∧
    ((100 : ℕ) ≤ 200 ∧ 200 ≤ 201 ∧
      outcomeAction (some 200) = LifecycleAction.complete) :=
  ⟨⟨by decide, by decide, outcome_mapping.2.1 503 (by decide) (by decide)⟩,
   ⟨by decide, by decide, outcome_mapping.2.2.1 404 (by decide) (by decide)⟩,
   ⟨by decide, by decide, outcome_mapping.2.2.2.1 200 (by decide) (by decide)⟩⟩

/-- C3: the snapshot of a successful `acquire(id, k)` holds
`retry_count = k + 1`, and each of `reschedule`, `complete` and `fail` is a
conditional update filtered by `(id, k + 1)`: on a store whose
id-matching rows have advanced past `k + 1` each write matches nothing and
leaves the store unchanged. -/
theorem stale_write_dropped (now : ℤ) (store : List Task) (tid rc : ℤ)
    (snap : TaskData) (hacq : (acquire now store tid rc).2 = some snap) :
    snap.retry_count = rc + 1 ∧
    ∀ (s' : List Task) (now' : ℤ) (jitter : ℤ → ℤ),
      (∀ u ∈ s', u.id = tid → rc + 1 < u.retry_count) →
      (rescheduleOp now' jitter snap tid s').1 = s' ∧
      (completeOp snap tid s').1 = s' ∧
      (failOp snap tid s').1 = s' := by
  have hsnap : snap.retry_count = rc + 1 := by
    cases hf : findTask store tid rc with
    | none => simp [acquire, hf] at hacq
    | some t =>
      simp only [acquire, hf] at hacq
      have : taskJson (acquiredRow now t rc) = snap := by
        simpa using hacq
      rw [← this]
      rfl
  refine ⟨hsnap, ?_⟩
  intro s' now' jitter hstale
  have hnm : ∀ u ∈ s', ¬(u.id = tid ∧ u.retry_count = snap.retry_count) := by
    intro u hu hc
    have := hstale u hu hc.1
    rw [hsnap] at hc
    omega
  exact ⟨condUpdate_of_no_match hnm, condUpdate_of_no_match hnm,
    condUpdate_of_no_match hnm⟩

/-- C3 witness: the stale terminal writes are dropped on a store whose row
advanced to `retry_count = 5`. -/
theorem stale_write_dropped_witness :
    (acquire 100 [wTask] 1 0).2 = some (taskJson (acquiredRow 100 wTask 0)) ∧
    (taskJson (acquiredRow 100 wTask 0)).retry_count = 0 + 1 ∧
    (rescheduleOp 150 (fun _ => 0) (taskJson (acquiredRow 100 wTask 0)) 1
      [staleTask]).1 = [staleTask] ∧
    (completeOp (taskJson (acquiredRow 100 wTask 0)) 1 [staleTask]).1
      = [staleTask] ∧
    (failOp (taskJson (acquiredRow 100 wTask 0)) 1 [staleTask]).1
      = [staleTask] := by
  have h := stale_write_dropped 100 [wTask] 1 0
    (taskJson (acquiredRow 100 wTask 0)) (by decide)
  have hstale : ∀ u ∈ [staleTask], u.id = 1 → (0 : ℤ) + 1 < u.retry_count := by
    intro u hu
    rw [List.mem_singleton] at hu
    subst hu
    intro h
    decide
  obtain ⟨h1, h2⟩ := h
  obtain ⟨h3, h4, h5⟩ := h2 [staleTask] 150 (fun _ => 0) hstale
  exact ⟨by decide, h1, h3, h4, h5⟩

/-- C4: `reschedule()` returns `pending`; the matched row is rewritten
with `due = due(0, retry_count)` (timeout passed as 0, so the task is
immediately re-due up to jitter) and its status is pending. -/
theorem reschedule_spec (now' : ℤ) (jitter : ℤ → ℤ) (snap : TaskData)
    (tid : ℤ) (s : List Task) (t : Task)
    (huniq : uniqueIds s = true)
    (hfind : findTask s tid snap.retry_count = some t) :
    (rescheduleOp now' jitter snap tid s).2 = TaskStatus.pending ∧
    dueFactory now' 0 snap.retry_count jitter
      = now' + 0 + jitter snap.retry_count ∧
    findTask (rescheduleOp now' jitter snap tid s).1 tid snap.retry_count
      = some { t with
          retry_count := snap.retry_count,
          timeout := snap.timeout,
          status := TaskStatus.pending,
          due := dueFactory now' 0 snap.retry_count jitter } := by
  have htid := (findTask_some hfind).1
  refine ⟨rfl, rfl, ?_⟩
  have hid : (applyUpdate snap none
      (some (dueFactory now' 0 snap.retry_count jitter)) t).id = tid := htid
  have h := findTask_condUpdate
    (applyUpdate snap none (some (dueFactory now' 0 snap.retry_count jitter)))
    snap.retry_count huniq hfind hid
  simp only [rescheduleOp, updateTask]
  rw [h]
  rw [if_pos (show (applyUpdate snap none
      (some (dueFactory now' 0 snap.retry_count jitter)) t).retry_count
      = snap.retry_count from rfl)]
  rfl

/-- C4 witness: rescheduling the freshly acquired concrete row. -/
theorem reschedule_spec_witness :
    uniqueIds [wAcquired] = true ∧
    findTask [wAcquired] 1 wSnap.retry_count = some wAcquired ∧
    ((rescheduleOp 150 (fun _ => 0) wSnap 1 [wAcquired]).2 = TaskStatus.pending ∧
     dueFactory 150 0 wSnap.retry_count (fun _ => 0) = 150 + 0 + 0 ∧
     findTask (rescheduleOp 150 (fun _ => 0) wSnap 1 [wAcquired]).1 1
        wSnap.retry_count
       = some { wAcquired with
           retry_count := wSnap.retry_count,
           timeout := wSnap.timeout,
           status := TaskStatus.pending,
           due := dueFactory 150 0 wSnap.retry_count (fun _ => 0) }) :=
  ⟨by decide, by decide,
   reschedule_spec 150 (fun _ => 0) wSnap 1 [wAcquired] wAcquired
     (by decide) (by decide)⟩

/-- C5 counterexample: with the processor defaults, a transport failure
(status 500) at error count 40 — below the `max_task_errors` ceiling but
with `pow(1 + min_delay, error_count) > max_task_delay` — is re-added with
the clamped delay rather than being marked failed, contradicting the claim
that exceeding `max_task_delay` fails the task. -/
theorem retry_ceiling_counterexample :
    processResponseCode procDefaults 500 40
      = TaskFate.readded procDefaults.max_task_delay ∧
    procDefaults.max_task_delay < (1 + procDefaults.min_delay) ^ 40 ∧
    (40 : ℕ) ≤ procDefaults.max_task_errors ∧
    TaskFate.readded procDefaults.max_task_delay ≠ TaskFate.removed := by
  have hq : procDefaults.max_task_delay < (1 + procDefaults.min_delay) ^ 40 := by
    show (1111 : ℚ) < (1 + 1/5) ^ 40
    norm_num
  refine ⟨?_, hq, by decide, by decide⟩
  simp only [processResponseCode]
  rw [if_neg (by omega), if_neg (by decide), if_pos hq]

/-- C5 amended: after a non-2xx status the task is removed exactly when the
incremented error count strictly exceeds `max_task_errors`; otherwise it is
re-added with delay `pow(1 + min_delay, error_count)` clamped at
`max_task_delay` — a delay beyond the cap is clamped, it does not fail the
task. -/
theorem transport_failure_handling (cfg : ProcCfg) (s ec : ℕ)
    (herr : s < 200 ∨ 300 ≤ s) :
    processResponseCode cfg s ec =
      if cfg.max_task_errors < ec then TaskFate.removed
      else TaskFate.readded
        (min ((1 + cfg.min_delay) ^ ec) cfg.max_task_delay) := by
  simp only [processResponseCode]
  rw [if_neg (by omega)]
  by_cases h : cfg.max_task_errors < ec
  · rw [if_pos h, if_pos h]
  · rw [if_neg h, if_neg h]
    congr 1
    rcases le_or_lt ((1 + cfg.min_delay) ^ ec) cfg.max_task_delay with hle | hlt
    · rw [if_neg (not_lt.mpr hle), min_eq_left hle]
    · rw [if_pos hlt, min_eq_right hlt.le]

/-- C5 witness: the amended handling at status 500, error count 3. -/
theorem transport_failure_handling_witness :
    ((500 : ℕ) < 200 ∨ 300 ≤ 500) ∧
    processResponseCode procDefaults 500 3 =
      (if procDefaults.max_task_errors < 3 then TaskFate.removed
       else TaskFate.readded
         (min ((1 + procDefaults.min_delay) ^ 3) procDefaults.max_task_delay)) :=
  ⟨Or.inr (by decide),
   transport_failure_handling procDefaults 500 3 (Or.inr (by decide))⟩

/-- C7: under `finish_on_empty` the run returns success exactly on executer
status 205 — which the executer produces exactly when the fetched batch is
empty and the pending count is zero — and returns failure exactly on a
status that is neither 200 nor 204/205; with `finish_on_empty` off, no
status finishes the loop. -/
theorem finish_on_empty_spec (cfg : PollCfg) (b : ℚ)
    (status n pending_count : ℕ) :
    (cfg.finish_on_empty = true →
      ((runIteration cfg status b = LoopStep.finished true ↔ status = 205) ∧
       (runIteration cfg status b = LoopStep.finished false ↔
         (status ≠ 200 ∧ status ≠ 204 ∧ status ≠ 205)) ∧
       (executerStatus n true pending_count = some 205 ↔
         (n = 0 ∧ pending_count = 0)))) ∧
    (cfg.finish_on_empty = false →
      ∀ r : Bool, runIteration cfg status b ≠ LoopStep.finished r) := by
  constructor
  · intro hf
    refine ⟨?_, ?_, ?_⟩
    · unfold runIteration
      split_ifs with h1 h2 h3 <;> simp_all
    · unfold runIteration
      split_ifs with h1 h2 h3 <;> simp_all
    · unfold executerStatus executerEmptyStatus
      split_ifs with h1 h2 <;> simp_all
  · intro hf r
    unfold runIteration
    split_ifs with h1 h2 h3 <;> simp_all

/-- C7 witness: status 205 finishes successfully with the mode on; an
error status does not finish the loop with the mode off. -/
theorem finish_on_empty_spec_witness :
    ((runIteration pollCfgOn 205 (1/5) = LoopStep.finished true ↔
        (205 : ℕ) = 205) ∧
     (runIteration pollCfgOn 205 (1/5) = LoopStep.finished false ↔
        ((205 : ℕ) ≠ 200 ∧ (205 : ℕ) ≠ 204 ∧ (205 : ℕ) ≠ 205)) ∧
     (executerStatus 0 true 0 = some 205 ↔ ((0 : ℕ) = 0 ∧ (0 : ℕ) = 0))) ∧
    (∀ r : Bool, runIteration pollCfgOff 500 (1/5) ≠ LoopStep.finished r) :=
  ⟨(finish_on_empty_spec pollCfgOn (1/5) 205 0 0).1 rfl,
   (finish_on_empty_spec pollCfgOff (1/5) 500 0 0).2 rfl⟩

/-- C8 counterexample: with a matcher accepting the hook URL (as the real
`VALID_URL` regex does for `http://example.com/hook`), the request
`timeout=-1` is accepted and persisted with a negative timeout — `int()`
parses the sign and the compiled `VALID_INT` non-negativity regex is never
applied — contradicting the claimed 400 for integers below zero. -/
theorem enqueue_timeout_counterexample :
    enqueTask (fun _ => true) (some "http://example.com/hook") (some "-1")
      none []
      = ([("http://example.com/hook", -1)], EnqueueOutcome.created (-1)) ∧
    (-1 : ℤ) < 0 :=
  ⟨by decide, by decide⟩

/-- C8 amended: a missing, empty or non-matching url fails with the 400 url
message; a timeout string (parameter or configured default) that `int()`
cannot parse fails with the 400 timeout message; a parseable timeout of
either sign is accepted and persisted; in both failure cases nothing is
persisted. -/
theorem enqueue_validation (matchUrl : String → Bool)
    (url timeoutParam defaultTimeout : Option String)
    (store : List (String × ℤ)) :
    (url = none →
      enqueTask matchUrl url timeoutParam defaultTimeout store
        = (store, EnqueueOutcome.badUrl)) ∧
    (∀ u, url = some u → (u = "" ∨ matchUrl u = false) →
      enqueTask matchUrl url timeoutParam defaultTimeout store
        = (store, EnqueueOutcome.badUrl)) ∧
    (∀ u raw, url = some u → ¬(u = "" ∨ matchUrl u = false) →
      timeoutParam.orElse (fun _ => defaultTimeout) = some raw →
      pyInt raw = none →
      enqueTask matchUrl url timeoutParam defaultTimeout store
        = (store, EnqueueOutcome.badTimeout)) ∧
    (∀ u raw t, url = some u → ¬(u = "" ∨ matchUrl u = false) →
      timeoutParam.orElse (fun _ => defaultTimeout) = some raw →
      pyInt raw = some t →
      enqueTask matchUrl url timeoutParam defaultTimeout store
        = (store ++ [(u, t)], EnqueueOutcome.created t)) ∧
    ((enqueTask matchUrl url timeoutParam defaultTimeout store).2
        = EnqueueOutcome.badUrl ∨
     (enqueTask matchUrl url timeoutParam defaultTimeout store).2
        = EnqueueOutcome.badTimeout →
      (enqueTask matchUrl url timeoutParam defaultTimeout store).1 = store) := by
  refine ⟨?_, ?_, ?_, ?_, ?_⟩
  · intro h
    subst h
    rfl
  · intro u hu hbad
    subst hu
    simp only [enqueTask]
    rw [if_pos hbad]
  · intro u raw hu hok horaw hpy
    subst hu
    simp only [enqueTask]
    rw [if_neg hok]
    simp only [horaw]
    rw [hpy]
  · intro u raw t hu hok horaw hpy
    subst hu
    simp only [enqueTask]
    rw [if_neg hok]
    simp only [horaw]
    rw [hpy]
  · intro h
    rcases url with _ | u
    · rfl
    · by_cases hok : u = "" ∨ matchUrl u = false
      · simp [enqueTask, hok]
      · rcases horaw : timeoutParam.orElse (fun _ => defaultTimeout) with _ | raw
        · simp [enqueTask, hok, horaw]
        · rcases hpy : pyInt raw with _ | t
          · simp [enqueTask, hok, horaw, hpy]
          · simp [enqueTask, hok, horaw, hpy] at h

/-- C8 witness: a rejected url, a rejected timeout string, and an accepted
request on concrete inputs. -/
theorem enqueue_validation_witness :
    enqueTask (fun _ => false) (some "ftp://x") none (some "5") []
      = ([], EnqueueOutcome.badUrl) ∧
    enqueTask (fun _ => true) (some "http://h/ok") (some "ten") none []
      = ([], EnqueueOutcome.badTimeout) ∧
    enqueTask (fun _ => true) (some "http://h/ok") (some "7") none []
      = ([("http://h/ok", 7)], EnqueueOutcome.created 7) :=
  ⟨(enqueue_validation (fun _ => false) (some "ftp://x") none (some "5")
      []).2.1 "ftp://x" rfl (Or.inr rfl),
   (enqueue_validation (fun _ => true) (some "http://h/ok") (some "ten") none
      []).2.2.1 "http://h/ok" "ten" rfl (by decide) rfl (by decide),
   (enqueue_validation (fun _ => true) (some "http://h/ok") (some "7") none
      []).2.2.2.1 "http://h/ok" "7" 7 rfl (by decide) rfl (by decide)⟩

/-- C9 counterexample: the malformed instruction `"garbage"` makes
`TaskPerformer.__call__` raise `ValueError` (there is no try/except around
the parse), rather than being dropped with a normal return as claimed; the
store is untouched. -/
theorem malformed_instruction_counterexample :
    parseInstruction "garbage" = none ∧
    (performerRun envCleared 1 "garbage" [wTask]).1 = [wTask] ∧
    (performerRun envCleared 1 "garbage" [wTask]).2
      = Except.error PerformError.valueError :=
  ⟨by decide, rfl, rfl⟩

/-- C9 amended: every malformed instruction makes `TaskPerformer.__call__`
raise `ValueError` to its caller before any lifecycle call: the store is
returned unchanged and no task-state mutation occurs. -/
theorem malformed_instruction_raises (env : PerformEnv) (fuel : ℕ)
    (instr : String) (store : List Task)
    (h : parseInstruction instr = none) :
    performerRun env fuel instr store
      = (store, Except.error PerformError.valueError) := by
  simp [performerRun, h]

/-- C9 witness: the raise on the concrete instruction `"garbage"`. -/
theorem malformed_instruction_raises_witness :
    parseInstruction "garbage" = none ∧
    performerRun envCleared 1 "garbage" [wTask]
      = ([wTask], Except.error PerformError.valueError) :=
  ⟨by decide,
   malformed_instruction_raises envCleared 1 "garbage" [wTask] (by decide)⟩

/-- C6 counterexample: the flag is cleared while the POST is in flight
(`envCleared`), yet the performer does not leave the row `in_progress` with
`due = now_at_acquire + timeout`: it falls through to `reschedule()`, so
the row is `pending` with `due` accelerated to 150 rather than 110. -/
theorem shutdown_midflight_counterexample :
    (performerRun envCleared 2 "1:0" [wTask]).2
      = Except.ok (some TaskStatus.pending) ∧
    (performerRun envCleared 2 "1:0" [wTask]).1
      = [{ wTask with
            retry_count := 1,
            status := TaskStatus.pending,
            due := 150 }] ∧
    TaskStatus.pending ≠ TaskStatus.in_progress ∧
    ((150 : ℤ) ≠ envCleared.nowAcquire + wTask.timeout) :=
  ⟨rfl, by decide, by decide, by decide⟩

/-- C6 amended: when the control flag clears during the wait (before any
readiness), the performer exits the poll loop without a response and
invokes `reschedule()` — not a terminal `complete`/`fail` — so the row does
not stay `in_progress` with the acquisition due: it is rewritten to
`pending` with the accelerated `due = due(0, retry_count)`. -/
theorem shutdown_midflight (env : PerformEnv) (fuel : ℕ) (instr : String)
    (store : List Task) (tid rc : ℤ) (t : Task) (n : ℕ)
    (hpar : parseInstruction instr = some (tid, rc))
    (huniq : uniqueIds store = true)
    (hfind : findTask store tid rc = some t)
    (hn : n < fuel) (hclear : env.flag n = false)
    (hbefore : ∀ k, k < n → env.flag k = true ∧ env.ready k = none) :
    (performerRun env fuel instr store).2
      = Except.ok (some TaskStatus.pending) ∧
    findTask (performerRun env fuel instr store).1 tid (rc + 1)
      = some { t with
          retry_count := rc + 1,
          status := TaskStatus.pending,
          due := dueFactory env.nowUpdate 0 (rc + 1) env.jitter } := by
  have hpoll : pollLoop env.flag env.ready 0 fuel = none :=
    pollLoop_cleared env.flag env.ready fuel 0 n (Nat.zero_le n) (by omega)
      hclear (fun j _ hj2 => hbefore j hj2)
  have htid := (findTask_some hfind).1
  have hacq : acquire env.nowAcquire store tid rc
      = (condUpdate tid rc (fun u => acquiredRow env.nowAcquire u rc) store,
         some (taskJson (acquiredRow env.nowAcquire t rc))) := by
    simp [acquire, hfind]
  have hrun : performerRun env fuel instr store
      = ((rescheduleOp env.nowUpdate env.jitter
            (taskJson (acquiredRow env.nowAcquire t rc)) tid
            (condUpdate tid rc (fun u => acquiredRow env.nowAcquire u rc)
              store)).1,
         Except.ok (some TaskStatus.pending)) := by
    simp only [performerRun, hpar, hacq, hpoll]
    rfl
  have hidf : ∀ u, ((fun u => acquiredRow env.nowAcquire u rc) u).id = u.id :=
    fun _ => rfl
  have huniq1 : uniqueIds
      (condUpdate tid rc (fun u => acquiredRow env.nowAcquire u rc) store)
      = true := by
    rw [uniqueIds_condUpdate hidf store]
    exact huniq
  have hfind1 : findTask
      (condUpdate tid rc (fun u => acquiredRow env.nowAcquire u rc) store)
      tid (rc + 1) = some (acquiredRow env.nowAcquire t rc) := by
    rw [findTask_condUpdate (fun u => acquiredRow env.nowAcquire u rc) (rc + 1)
      huniq hfind htid]
    rw [if_pos (show (acquiredRow env.nowAcquire t rc).retry_count = rc + 1
      from rfl)]
  have hsnaprc : (taskJson (acquiredRow env.nowAcquire t rc)).retry_count
      = rc + 1 := rfl
  refine ⟨by rw [hrun], ?_⟩
  rw [hrun]
  simp only [rescheduleOp, updateTask, hsnaprc]
  rw [findTask_condUpdate
    (applyUpdate (taskJson (acquiredRow env.nowAcquire t rc)) none
      (some (dueFactory env.nowUpdate 0 (rc + 1) env.jitter)))
    (rc + 1) huniq1 hfind1
    (show (applyUpdate (taskJson (acquiredRow env.nowAcquire t rc)) none
      (some (dueFactory env.nowUpdate 0 (rc + 1) env.jitter))
      (acquiredRow env.nowAcquire t rc)).id = tid from htid)]
  rw [if_pos (show (applyUpdate (taskJson (acquiredRow env.nowAcquire t rc))
    none (some (dueFactory env.nowUpdate 0 (rc + 1) env.jitter))
    (acquiredRow env.nowAcquire t rc)).retry_count = rc + 1 from rfl)]
  rfl

/-- C6 witness: the amended behavior on the concrete cleared-flag run. -/
theorem shutdown_midflight_witness :
    parseInstruction "1:0" = some (1, 0) ∧
    uniqueIds [wTask] = true ∧
    findTask [wTask] 1 0 = some wTask ∧
    (0 : ℕ) < 2 ∧
    envCleared.flag 0 = false ∧
    ((performerRun envCleared 2 "1:0" [wTask]).2
        = Except.ok (some TaskStatus.pending) ∧
     findTask (performerRun envCleared 2 "1:0" [wTask]).1 1 (0 + 1)
       = some { wTask with
           retry_count := 0 + 1,
           status := TaskStatus.pending,
           due := dueFactory envCleared.nowUpdate 0 (0 + 1) envCleared.jitter }) :=
  ⟨by decide, by decide, by decide, by decide, rfl,
   shutdown_midflight envCleared 2 "1:0" [wTask] 1 0 wTask 0 (by decide)
     (by decide) (by decide) (by decide) rfl
     (fun k hk => absurd hk (Nat.not_lt_zero k))⟩

/-- C10 counterexample: rescheduling the acquired concrete row changes its
status (from `in_progress` back to `pending`), not only its `due`,
refuting "reschedule() changes only due". -/
theorem reschedule_frame_counterexample :
    (rescheduleOp 150 (fun _ => 0) wSnap 1 [wAcquired]).1
      = [{ wAcquired with status := TaskStatus.pending, due := 150 }] ∧
    wAcquired.status = TaskStatus.in_progress ∧
    TaskStatus.pending ≠ TaskStatus.in_progress :=
  ⟨by decide, by decide, by decide⟩

/-- C10 amended: on a store whose matched rows agree with the snapshot on
`timeout` (as the conditional filter already forces for `retry_count`),
`complete()` and `fail()` change only `status` on the matched row,
`reschedule()` changes only `due` and `status` (the row returns to
`pending` under the modelled onupdate machinery), and every other field —
and every unmatched row — is unchanged. -/
theorem lifecycle_frame (snap : TaskData) (tid now' : ℤ) (jitter : ℤ → ℤ)
    (s : List Task)
    (ht : ∀ u ∈ s, u.id = tid → u.retry_count = snap.retry_count →
      u.timeout = snap.timeout) :
    (completeOp snap tid s).1
      = condUpdate tid snap.retry_count
          (fun u => { u with status := TaskStatus.completed }) s ∧
    (failOp snap tid s).1
      = condUpdate tid snap.retry_count
          (fun u => { u with status := TaskStatus.failed }) s ∧
    (rescheduleOp now' jitter snap tid s).1
      = condUpdate tid snap.retry_count
          (fun u => { u with
              status := TaskStatus.pending,
              due := dueFactory now' 0 snap.retry_count jitter }) s := by
  refine ⟨?_, ?_, ?_⟩ <;>
  · simp only [completeOp, failOp, rescheduleOp, updateTask]
    apply condUpdate_congr
    intro u hu h1 h2
    simp only [applyUpdate]
    rw [← h2, ← ht u hu h1 h2]
    rfl

/-- C10 witness: the frame conditions on the concrete acquired row. -/
theorem lifecycle_frame_witness :
    (completeOp wSnap 1 [wAcquired]).1
      = condUpdate 1 wSnap.retry_count
          (fun u => { u with status := TaskStatus.completed }) [wAcquired] ∧
    (failOp wSnap 1 [wAcquired]).1
      = condUpdate 1 wSnap.retry_count
          (fun u => { u with status := TaskStatus.failed }) [wAcquired] ∧
    (rescheduleOp 150 (fun _ => 0) wSnap 1 [wAcquired]).1
      = condUpdate 1 wSnap.retry_count
          (fun u => { u with
              status := TaskStatus.pending,
              due := dueFactory 150 0 wSnap.retry_count (fun _ => 0) })
          [wAcquired] := by
  have hyp : ∀ u ∈ [wAcquired], u.id = 1 →
      u.retry_count = wSnap.retry_count → u.timeout = wSnap.timeout := by
    intro u hu _ _
    rw [List.mem_singleton] at hu
    subst hu
    rfl
  exact lifecycle_frame wSnap 1 150 (fun _ => 0) [wAcquired] hyp

end Torque
